import Mathlib

/-!
Verification of the hornet node's gossip service event loop
(`pkg/protocol/gossip/service.go`) and pruning engine
(`plugins/snapshot/pruning.go`) against their specification.

The Go code is shallowly embedded: peer IDs, message IDs and milestone
indexes become `Nat` (milestone.Index is a uint32 in the source; every
subtraction below is guarded by the comparison the source performs first,
so natural subtraction agrees with the uint32 value on every reachable
path), Go maps become functions `Nat → Option _` updated pointwise, and
side effects (events fired on the event bus, deletions issued to the
store) are recorded in explicit lists.
-/

/-- Pointwise update of a map, mirroring a Go map assignment or delete. -/
def updateFn {α : Type} (f : Nat → α) (k : Nat) (v : α) : Nat → α :=
  fun x => if x = k then v else f x

theorem updateFn_same {α : Type} (f : Nat → α) (k : Nat) (v : α) :
    updateFn f k v k = v := by
  simp [updateFn]

theorem updateFn_other {α : Type} (f : Nat → α) (k : Nat) (v : α) (x : Nat)
    (h : x ≠ k) : updateFn f k v x = f x := by
  simp [updateFn, h]

instance {ε α : Type} [DecidableEq ε] [DecidableEq α] : DecidableEq (Except ε α) :=
  fun a b =>
    match a, b with
    | Except.ok x, Except.ok y =>
        if h : x = y then isTrue (by rw [h])
        else isFalse (fun hh => by cases hh; exact h rfl)
    | Except.error e1, Except.error e2 =>
        if h : e1 = e2 then isTrue (by rw [h])
        else isFalse (fun hh => by cases hh; exact h rfl)
    | Except.ok _, Except.error _ => isFalse (fun hh => by cases hh)
    | Except.error _, Except.ok _ => isFalse (fun hh => by cases hh)

namespace Gossip

/-- p2p.PeerRelation: gossip is only allowed when the relation is not unknown. -/
inductive PeerRelation
  | known
  | unknown
  | autopeered
deriving DecidableEq

/-- A p2p.Peer as handed to the event handlers: its ID and current relation. -/
structure Peer where
  id : Nat
  relation : PeerRelation
deriving DecidableEq

/-- A network.Stream: its identity, the remote peer of its underlying
connection (`stream.Conn().RemotePeer()`), and whether `stream.Reset()`
returns an error (transport behaviour, fixed per stream). -/
structure Stream where
  streamId : Nat
  remotePeer : Nat
  resetErr : Bool
deriving DecidableEq

/-- A gossip.Protocol session as built by `NewProtocol(peerID, stream, sendQueueSize)`. -/
structure Protocol where
  peerID : Nat
  stream : Stream
  sendQueueSize : Nat
deriving DecidableEq

/-- The events fired on the Service's event bus (§ ServiceEvents).
The error payload is irrelevant to the claims and is dropped. -/
inductive GossipEvent
  | protocolStarted (proto : Protocol)
  | protocolTerminated (proto : Protocol)
  | inboundStreamCancelled ( stream : Stream) (reason : String)
  | error
deriving DecidableEq

/-- Actions issued to the transport while handling an event. -/
inductive NetAction
  | connClose ( stream : Stream)
  | streamReset ( stream : Stream)
deriving DecidableEq

def StreamCancelReasonDuplicated : String := "duplicated stream"

def StreamCancelReasonInsufficientPeerRelation : String := "insufficient peer relation"

/-- The state owned by the Service's event loop, plus the read-only
environment it queries: the peer manager's records (`manager.Call`
invokes its callback only for peers it knows) and the transport's
`NewStream` outcome per peer (`none` models an error). -/
structure ServiceState where
  streams : Nat → Option Protocol
  manager : Nat → Option PeerRelation
  newStream : Nat → Option Stream
  sendQueueSize : Nat

/-- closeUnwantedStream: close the underlying connection, then reset the
stream (in this order, so the remote's ClosedStream notifiee fires). -/
def closeUnwantedStream ( stream : Stream) : List NetAction :=
  [NetAction.connClose stream, NetAction.streamReset stream]

/-- registerProtocol: build the Protocol and store it in `streams`. -/
def registerProtocol (s : ServiceState) (peerID : Nat) ( stream : Stream) :
    Protocol × ServiceState :=
  let proto : Protocol := ⟨peerID, stream, s.sendQueueSize⟩
  (proto, { s with streams := updateFn s.streams peerID (some proto) })

/-- handleInboundStream: cancel a duplicate, query the manager for the
relation (the callback sets `ok` only when the peer is known and its
relation is not unknown), cancel on insufficient relation, otherwise
register. Returns the new protocol (if any), the new state, the events
fired and the transport actions issued. -/
def handleInboundStream (s : ServiceState) ( stream : Stream) :
    Option Protocol × ServiceState × List GossipEvent × List NetAction :=
  let remotePeerID := stream.remotePeer
  match s.streams remotePeerID with
  | some _ =>
      (none, s,
        [GossipEvent.inboundStreamCancelled stream StreamCancelReasonDuplicated],
        closeUnwantedStream stream)
  | none =>
      let ok : Bool :=
        match s.manager remotePeerID with
        | none => false
        | some rel => if rel = PeerRelation.unknown then false else true
      if ok then
        let (proto, s') := registerProtocol s remotePeerID stream
        (some proto, s', [], [])
      else
        (none, s,
          [GossipEvent.inboundStreamCancelled stream StreamCancelReasonInsufficientPeerRelation],
          closeUnwantedStream stream)

/-- openStream: `host.NewStream` under the connect timeout; the zero-byte
read that follows has no state effect and is omitted. -/
def openStream (s : ServiceState) (peerID : Nat) : Option Stream :=
  s.newStream peerID

/-- deregisterProtocol: returns ((removed, resetFailed), state). The Go
version returns `(false, nil)` when no session is ongoing; otherwise it
deletes the map entry first and then resets the stream, reporting the
reset error if any. -/
def deregisterProtocol (s : ServiceState) (peerID : Nat) :
    (Bool × Bool) × ServiceState :=
  match s.streams peerID with
  | none => ((false, false), s)
  | some proto =>
      ((true, proto.stream.resetErr),
        { s with streams := updateFn s.streams peerID none })

/-- closeStream: fires Error (and returns early) if the reset failed,
otherwise fires ProtocolTerminated if a session was removed. -/
def closeStream (s : ServiceState) (peerID : Nat) :
    ServiceState × List GossipEvent :=
  let proto? := s.streams peerID
  match deregisterProtocol s peerID with
  | ((didReset, resetFailed), s') =>
    if resetFailed then (s', [GossipEvent.error])
    else if didReset then
      match proto? with
      | some proto => (s', [GossipEvent.protocolTerminated proto])
      | none => (s', [])
    else (s', [])

/-- handleConnected: nothing if a session is ongoing or the connection is
not outbound, otherwise open a stream and register. Second component of
the first pair is whether an error occurred. -/
def handleConnected (s : ServiceState) (peer : Peer) (connOutbound : Bool) :
    (Option Protocol × Bool) × ServiceState :=
  match s.streams peer.id with
  | some _ => ((none, false), s)
  | none =>
      if connOutbound then
        match openStream s peer.id with
        | none => ((none, true), s)
        | some stream =>
            let (proto, s') := registerProtocol s peer.id stream
            ((some proto, false), s')
      else ((none, false), s)

/-- handleRelationUpdated: on a downgrade to unknown, deregister and
return `(nil, err)`; otherwise open a stream if none is ongoing. -/
def handleRelationUpdated (s : ServiceState) (peer : Peer)
    (_oldRel : PeerRelation) : (Option Protocol × Bool) × ServiceState :=
  let newRel := peer.relation
  if newRel = PeerRelation.unknown then
    match deregisterProtocol s peer.id with
    | ((_, resetFailed), s') => ((none, resetFailed), s')
  else
    match s.streams peer.id with
    | some _ => ((none, false), s)
    | none =>
        match openStream s peer.id with
        | none => ((none, true), s)
        | some stream =>
            let (proto, s') := registerProtocol s peer.id stream
            ((some proto, false), s')

/-- One message received on the Service's event loop channels. -/
inductive LoopEvent
  | inboundStream ( stream : Stream)
  | connected (peer : Peer) (connOutbound : Bool)
  | disconnected (peer : Peer)
  | streamClosed (peerID : Nat) ( stream : Stream)
  | relationUpdated (peer : Peer) ( oldRel : PeerRelation)

/-- One iteration of the Service's event loop `select`: dispatch the
event to its handler, then fire the loop-level events (ProtocolStarted
on success, Error on handler error). Returns the new state, the events
fired (in firing order) and the transport actions issued. -/
def eventLoopStep (s : ServiceState) (ev : LoopEvent) :
    ServiceState × List GossipEvent × List NetAction :=
  match ev with
  | LoopEvent.inboundStream stream =>
      match handleInboundStream s stream with
      | (some proto, s', evs, acts) =>
          (s', evs ++ [GossipEvent.protocolStarted proto], acts)
      | (none, s', evs, acts) => (s', evs, acts)
  | LoopEvent.connected peer connOutbound =>
      match handleConnected s peer connOutbound with
      | ((_, true), s') => (s', [GossipEvent.error], [])
      | ((some proto, false), s') => (s', [GossipEvent.protocolStarted proto], [])
      | ((none, false), s') => (s', [], [])
  | LoopEvent.disconnected peer =>
      match closeStream s peer.id with
      | (s', evs) => (s', evs, [])
  | LoopEvent.streamClosed peerID _ =>
      match closeStream s peerID with
      | (s', evs) => (s', evs, [])
  | LoopEvent.relationUpdated peer oldRel =>
      match handleRelationUpdated s peer oldRel with
      | ((_, true), s') => (s', [GossipEvent.error], [])
      | ((some proto, false), s') => (s', [GossipEvent.protocolStarted proto], [])
      | ((none, false), s') => (s', [], [])

end Gossip

namespace Gossip

/-- C7: while a session already exists for the remote peer, an inbound
stream is cancelled with reason "duplicated stream", the new stream and
its underlying connection are closed, no session is registered, and the
service state (in particular the streams mapping) is unchanged. -/
theorem inbound_duplicate_cancelled (s : ServiceState) ( stream : Stream)
    (q : Protocol) (h : s.streams stream.remotePeer = some q) :
    eventLoopStep s (LoopEvent.inboundStream stream) =
      (s, [GossipEvent.inboundStreamCancelled stream StreamCancelReasonDuplicated],
        [NetAction.connClose stream, NetAction.streamReset stream]) := by
  simp [eventLoopStep, handleInboundStream, closeUnwantedStream, h]

/-- Witness for C7 at a concrete state holding a session for peer 0. -/
theorem inbound_duplicate_cancelled_witness :
    eventLoopStep
        { streams := fun x => if x = 0 then some ⟨0, ⟨5, 0, false⟩, 3⟩ else none,
          manager := fun _ => none, newStream := fun _ => none, sendQueueSize := 3 }
        (LoopEvent.inboundStream ⟨7, 0, false⟩) =
      ({ streams := fun x => if x = 0 then some ⟨0, ⟨5, 0, false⟩, 3⟩ else none,
         manager := fun _ => none, newStream := fun _ => none, sendQueueSize := 3 },
        [GossipEvent.inboundStreamCancelled ⟨7, 0, false⟩ StreamCancelReasonDuplicated],
        [NetAction.connClose ⟨7, 0, false⟩, NetAction.streamReset ⟨7, 0, false⟩]) :=
  inbound_duplicate_cancelled _ ⟨7, 0, false⟩ ⟨0, ⟨5, 0, false⟩, 3⟩ rfl

/-- C10: an inbound stream from a peer with no record in the peer
manager (Call never invokes the callback) is cancelled with reason
"insufficient peer relation", no session is registered and the state is
unchanged — exactly the same outcome as for a peer whose recorded
relation is Unknown. -/
theorem inbound_no_record_cancelled (s : ServiceState) ( stream : Stream)
    (hns : s.streams stream.remotePeer = none)
    (hmgr : s.manager stream.remotePeer = none) :
    (eventLoopStep s (LoopEvent.inboundStream stream) =
      (s, [GossipEvent.inboundStreamCancelled stream
            StreamCancelReasonInsufficientPeerRelation],
        [NetAction.connClose stream, NetAction.streamReset stream])) ∧
    (eventLoopStep
        { s with manager := (updateFn s.manager stream.remotePeer
            (some PeerRelation.unknown)) }
        (LoopEvent.inboundStream stream) =
      ({ s with manager := (updateFn s.manager stream.remotePeer
            (some PeerRelation.unknown)) },
        [GossipEvent.inboundStreamCancelled stream
          StreamCancelReasonInsufficientPeerRelation],
        [NetAction.connClose stream, NetAction.streamReset stream])) := by
  constructor
  · simp [eventLoopStep, handleInboundStream, closeUnwantedStream, hns, hmgr]
  · simp [eventLoopStep, handleInboundStream, closeUnwantedStream, hns, hmgr,
      updateFn]

/-- Witness for C10 at a concrete state with no record for peer 9. -/
theorem inbound_no_record_cancelled_witness :
    (eventLoopStep
        { streams := fun _ => none, manager := fun _ => none,
          newStream := fun _ => none, sendQueueSize := 3 }
        (LoopEvent.inboundStream ⟨7, 9, false⟩) =
      ({ streams := fun _ => none, manager := fun _ => none,
         newStream := fun _ => none, sendQueueSize := 3 },
        [GossipEvent.inboundStreamCancelled ⟨7, 9, false⟩
          StreamCancelReasonInsufficientPeerRelation],
        [NetAction.connClose ⟨7, 9, false⟩, NetAction.streamReset ⟨7, 9, false⟩])) ∧
    (eventLoopStep
        { streams := fun _ => none,
          manager := updateFn (fun _ => none) 9 (some PeerRelation.unknown),
          newStream := fun _ => none, sendQueueSize := 3 }
        (LoopEvent.inboundStream ⟨7, 9, false⟩) =
      ({ streams := fun _ => none,
         manager := updateFn (fun _ => none) 9 (some PeerRelation.unknown),
         newStream := fun _ => none, sendQueueSize := 3 },
        [GossipEvent.inboundStreamCancelled ⟨7, 9, false⟩
          StreamCancelReasonInsufficientPeerRelation],
        [NetAction.connClose ⟨7, 9, false⟩, NetAction.streamReset ⟨7, 9, false⟩])) :=
  inbound_no_record_cancelled
    { streams := fun _ => none, manager := fun _ => none,
      newStream := fun _ => none, sendQueueSize := 3 }
    ⟨7, 9, false⟩ rfl rfl

/-- C1 counterexample: peer 0 has a registered session; processing
relationUpdated(peer 0, old=Known) with the new relation Unknown removes
the session but fires NO event at all — in particular ProtocolTerminated
is emitted zero times, not exactly once as the claim states. -/
theorem relation_downgrade_counterexample :
    (({ streams := fun x => if x = 0 then some ⟨0, ⟨5, 0, false⟩, 3⟩ else none,
        manager := fun _ => none, newStream := fun _ => none,
        sendQueueSize := 3 : ServiceState }).streams 0 =
      some ⟨0, ⟨5, 0, false⟩, 3⟩) ∧
    ((eventLoopStep
        { streams := fun x => if x = 0 then some ⟨0, ⟨5, 0, false⟩, 3⟩ else none,
          manager := fun _ => none, newStream := fun _ => none, sendQueueSize := 3 }
        (LoopEvent.relationUpdated ⟨0, PeerRelation.unknown⟩
          PeerRelation.known)).1.streams 0 = none) ∧
    ((eventLoopStep
        { streams := fun x => if x = 0 then some ⟨0, ⟨5, 0, false⟩, 3⟩ else none,
          manager := fun _ => none, newStream := fun _ => none, sendQueueSize := 3 }
        (LoopEvent.relationUpdated ⟨0, PeerRelation.unknown⟩
          PeerRelation.known)).2.1 = []) := by
  exact ⟨rfl, rfl, rfl⟩

/-- C1 amended: when the event loop processes relationUpdated for a peer
with a registered session and the new relation is Unknown, the session
is removed from the streams mapping, but no ProtocolTerminated event is
emitted on this path; the only possible event is Error if the stream
reset fails. -/
theorem relation_downgrade_removes_session (s : ServiceState) (p : Peer)
    ( oldRel : PeerRelation) (proto : Protocol)
    (hrel : p.relation = PeerRelation.unknown)
    (h : s.streams p.id = some proto) :
    ((eventLoopStep s (LoopEvent.relationUpdated p oldRel)).1.streams p.id = none) ∧
    ((eventLoopStep s (LoopEvent.relationUpdated p oldRel)).2.1 =
      if proto.stream.resetErr then [GossipEvent.error] else []) ∧
    (∀ q : Protocol, GossipEvent.protocolTerminated q ∉
      (eventLoopStep s (LoopEvent.relationUpdated p oldRel)).2.1) := by
  cases hres : proto.stream.resetErr <;>
    simp [eventLoopStep, handleRelationUpdated, deregisterProtocol, hrel, h, hres,
      updateFn_same]

/-- Witness for the amended C1 at a concrete state. -/
theorem relation_downgrade_removes_session_witness :
    ((eventLoopStep
        { streams := fun x => if x = 0 then some ⟨0, ⟨5, 0, false⟩, 3⟩ else none,
          manager := fun _ => none, newStream := fun _ => none, sendQueueSize := 3 }
        (LoopEvent.relationUpdated ⟨0, PeerRelation.unknown⟩
          PeerRelation.known)).1.streams 0 = none) ∧
    (GossipEvent.protocolTerminated ⟨0, ⟨5, 0, false⟩, 3⟩ ∉
      (eventLoopStep
        { streams := fun x => if x = 0 then some ⟨0, ⟨5, 0, false⟩, 3⟩ else none,
          manager := fun _ => none, newStream := fun _ => none, sendQueueSize := 3 }
        (LoopEvent.relationUpdated ⟨0, PeerRelation.unknown⟩
          PeerRelation.known)).2.1) := by
  have hth := relation_downgrade_removes_session
    { streams := fun x => if x = 0 then some ⟨0, ⟨5, 0, false⟩, 3⟩ else none,
      manager := fun _ => none, newStream := fun _ => none, sendQueueSize := 3 }
    ⟨0, PeerRelation.unknown⟩ PeerRelation.known ⟨0, ⟨5, 0, false⟩, 3⟩ rfl rfl
  exact ⟨hth.1, hth.2.2 ⟨0, ⟨5, 0, false⟩, 3⟩⟩

/-- C5 counterexample: peer 0 has a registered session whose stream
reset fails; processing disconnected(peer 0) removes the session (it is
"actually removed") and fires only Error — ProtocolTerminated is not
emitted, contradicting the claim that it is emitted whenever a session
was removed. -/
theorem close_stream_reset_error_counterexample :
    (({ streams := fun x => if x = 0 then some ⟨0, ⟨5, 0, true⟩, 3⟩ else none,
        manager := fun _ => none, newStream := fun _ => none,
        sendQueueSize := 3 : ServiceState }).streams 0 =
      some ⟨0, ⟨5, 0, true⟩, 3⟩) ∧
    ((eventLoopStep
        { streams := fun x => if x = 0 then some ⟨0, ⟨5, 0, true⟩, 3⟩ else none,
          manager := fun _ => none, newStream := fun _ => none, sendQueueSize := 3 }
        (LoopEvent.disconnected ⟨0, PeerRelation.known⟩)).1.streams 0 = none) ∧
    ((eventLoopStep
        { streams := fun x => if x = 0 then some ⟨0, ⟨5, 0, true⟩, 3⟩ else none,
          manager := fun _ => none, newStream := fun _ => none, sendQueueSize := 3 }
        (LoopEvent.disconnected ⟨0, PeerRelation.known⟩)).2.1 =
      [GossipEvent.error]) := by
  exact ⟨rfl, rfl, rfl⟩

/-- C5 amended: processing disconnected(P) or streamClosed(P) for a peer
with a registered session always removes the session from the streams
mapping; if the stream reset fails only Error is emitted, and
ProtocolTerminated is emitted exactly when the session was removed and
the reset succeeded. -/
theorem close_stream_removes_session (s : ServiceState) (p : Peer)
    ( stream : Stream) (proto : Protocol)
    (h : s.streams p.id = some proto) :
    ((eventLoopStep s (LoopEvent.disconnected p)).1.streams p.id = none ∧
     (eventLoopStep s (LoopEvent.disconnected p)).2.1 =
       if proto.stream.resetErr then [GossipEvent.error]
       else [GossipEvent.protocolTerminated proto]) ∧
    ((eventLoopStep s (LoopEvent.streamClosed p.id stream)).1.streams p.id = none ∧
     (eventLoopStep s (LoopEvent.streamClosed p.id stream)).2.1 =
       if proto.stream.resetErr then [GossipEvent.error]
       else [GossipEvent.protocolTerminated proto]) := by
  cases hres : proto.stream.resetErr <;>
    simp [eventLoopStep, closeStream, deregisterProtocol, h, hres, updateFn_same]

/-- Witness for the amended C5 at a concrete state whose reset succeeds. -/
theorem close_stream_removes_session_witness :
    ((eventLoopStep
        { streams := fun x => if x = 0 then some ⟨0, ⟨5, 0, false⟩, 3⟩ else none,
          manager := fun _ => none, newStream := fun _ => none, sendQueueSize := 3 }
        (LoopEvent.disconnected ⟨0, PeerRelation.known⟩)).1.streams 0 = none) ∧
    ((eventLoopStep
        { streams := fun x => if x = 0 then some ⟨0, ⟨5, 0, false⟩, 3⟩ else none,
          manager := fun _ => none, newStream := fun _ => none, sendQueueSize := 3 }
        (LoopEvent.disconnected ⟨0, PeerRelation.known⟩)).2.1 =
      [GossipEvent.protocolTerminated ⟨0, ⟨5, 0, false⟩, 3⟩]) ∧
    ((eventLoopStep
        { streams := fun x => if x = 0 then some ⟨0, ⟨5, 0, false⟩, 3⟩ else none,
          manager := fun _ => none, newStream := fun _ => none, sendQueueSize := 3 }
        (LoopEvent.streamClosed 0 ⟨7, 0, false⟩)).2.1 =
      [GossipEvent.protocolTerminated ⟨0, ⟨5, 0, false⟩, 3⟩]) := by
  have hth := close_stream_removes_session
    { streams := fun x => if x = 0 then some ⟨0, ⟨5, 0, false⟩, 3⟩ else none,
      manager := fun _ => none, newStream := fun _ => none, sendQueueSize := 3 }
    ⟨0, PeerRelation.known⟩ ⟨7, 0, false⟩ ⟨0, ⟨5, 0, false⟩, 3⟩ rfl
  exact ⟨hth.1.1, by simpa using hth.1.2, by simpa using hth.2.2⟩

end Gossip

namespace Pruning

/-- AdditionalPruningThreshold (plugins/snapshot/pruning.go). -/
def AdditionalPruningThreshold : Nat := 50

/-- tangle.SnapshotInfo, restricted to the fields pruning touches. -/
structure SnapshotInfo where
  snapshotIndex : Nat
  pruningIndex : Nat
  entryPointIndex : Nat
deriving DecidableEq

/-- A stored message together with the metadata and codec facts pruning
consults: its own ID (the store is content addressed), its two parents,
the confirmation flag of its metadata, and the external codec predicate
`tangle.IsMaybeMilestoneTx` (a fixed property of the transaction bytes,
modelled as a field). -/
structure Message where
  messageID : Nat
  parent1 : Nat
  parent2 : Nat
  isConfirmed : Bool
  maybeMilestoneTx : Bool
deriving DecidableEq

/-- A bundle of a transaction; only `bndl.GetMessage().IsMilestone()` matters here. -/
structure Bundle where
  isMilestone : Bool
deriving DecidableEq

/-- A stored milestone; pruning only reads its message ID. -/
structure Milestone where
  messageID : Nat
deriving DecidableEq

/-- The message store (tangle package) as seen by the pruning engine. -/
structure StoreState where
  snapshotInfo : Option SnapshotInfo
  messages : Nat → Option Message
  bundles : Nat → Option (List Bundle)
  unconfirmedIDs : Nat → List Nat
  children : Nat → List Nat
  milestones : Nat → Option Milestone
  ledgerDiffs : Nat → Bool
  solidEntryPoints : List (Nat × Nat)

/-- Error kinds returned by pruneDatabase. `log.Panic` on a missing
SnapshotInfo kills the process; it is modelled as a dedicated error. -/
inductive PruneError
  | notEnoughHistory
  | noPruningNeeded
  | pruningAborted
  | noSnapshotInfoPanic
deriving DecidableEq

/-- The store mutations and emissions pruning performs, recorded in
execution order. -/
inductive PruneAction
  | resetSolidEntryPoints
  | addSolidEntryPoint (id idx : Nat)
  | storeSolidEntryPoints
  | setSnapshotInfo (info : SnapshotInfo)
  | deleteUnconfirmed (idx : Nat)
  | deleteChild (parentID childID : Nat)
  | deleteChildren (id : Nat)
  | deleteMessage (id : Nat)
  | deleteMilestone (idx : Nat)
  | deleteLedgerDiff (idx : Nat)
  | runGC
  | pruningMilestoneIndexChanged (idx : Nat)
deriving DecidableEq

/-- Whether an action deletes cone data (unconfirmed-index entries,
messages, children-index entries, milestones, ledger diffs). -/
def PruneAction.isConeDeletion : PruneAction → Bool
  | PruneAction.deleteUnconfirmed _ => true
  | PruneAction.deleteChild _ _ => true
  | PruneAction.deleteChildren _ => true
  | PruneAction.deleteMessage _ => true
  | PruneAction.deleteMilestone _ => true
  | PruneAction.deleteLedgerDiff _ => true
  | _ => false

/-- The store paired with the trace of actions performed so far. -/
structure PruneState where
  store : StoreState
  trace : List PruneAction

def emitAction (ps : PruneState) (a : PruneAction) : PruneState :=
  { ps with trace := ps.trace ++ [a] }

/-- tangle.DeleteChild(parentID, childID). -/
def deleteChild (parentID childID : Nat) (ps : PruneState) : PruneState :=
  emitAction
    { ps with store := { ps.store with
        children := updateFn ps.store.children parentID
          ((ps.store.children parentID).erase childID) } }
    (PruneAction.deleteChild parentID childID)

/-- tangle.DeleteChildren(id). -/
def deleteChildren (id : Nat) (ps : PruneState) : PruneState :=
  emitAction
    { ps with store := { ps.store with
        children := updateFn ps.store.children id [] } }
    (PruneAction.deleteChildren id)

/-- tangle.DeleteMessage(id): removes the message and its metadata. -/
def deleteMessage (id : Nat) (ps : PruneState) : PruneState :=
  emitAction
    { ps with store := { ps.store with
        messages := updateFn ps.store.messages id none } }
    (PruneAction.deleteMessage id)

/-- tangle.DeleteUnconfirmedMessages(idx). -/
def deleteUnconfirmedMessages (idx : Nat) (ps : PruneState) : PruneState :=
  emitAction
    { ps with store := { ps.store with
        unconfirmedIDs := updateFn ps.store.unconfirmedIDs idx [] } }
    (PruneAction.deleteUnconfirmed idx)

/-- tangle.DeleteMilestone(idx). -/
def deleteMilestone (idx : Nat) (ps : PruneState) : PruneState :=
  emitAction
    { ps with store := { ps.store with
        milestones := updateFn ps.store.milestones idx none } }
    (PruneAction.deleteMilestone idx)

/-- tangle.DeleteLedgerDiffForMilestone(idx); its error is only logged. -/
def deleteLedgerDiffForMilestone (idx : Nat) (ps : PruneState) : PruneState :=
  emitAction
    { ps with store := { ps.store with
        ledgerDiffs := updateFn ps.store.ledgerDiffs idx false } }
    (PruneAction.deleteLedgerDiff idx)

/-- tangle.SetSnapshotInfo(info): persists the snapshot record. -/
def setSnapshotInfo (info : SnapshotInfo) (ps : PruneState) : PruneState :=
  emitAction
    { ps with store := { ps.store with snapshotInfo := some info } }
    (PruneAction.setSnapshotInfo info)

/-- tangle.ResetSolidEntryPoints (under the write lock, which serializes
nothing in this sequential model). -/
def resetSolidEntryPoints (ps : PruneState) : PruneState :=
  emitAction
    { ps with store := { ps.store with solidEntryPoints := [] } }
    PruneAction.resetSolidEntryPoints

/-- tangle.SolidEntryPointsAdd(id, idx). -/
def solidEntryPointsAdd (id idx : Nat) (ps : PruneState) : PruneState :=
  emitAction
    { ps with store := { ps.store with
        solidEntryPoints := ps.store.solidEntryPoints ++ [(id, idx)] } }
    (PruneAction.addSolidEntryPoint id idx)

/-- tangle.StoreSolidEntryPoints: persists the set (no in-memory change). -/
def storeSolidEntryPoints (ps : PruneState) : PruneState :=
  emitAction ps PruneAction.storeSolidEntryPoints

/-- database.RunGarbageCollection. -/
def runGarbageCollection (ps : PruneState) : PruneState :=
  emitAction ps PruneAction.runGC

/-- The body of the pruneMessages loop for one message ID: load the
message (skip if absent), then consume it: delete the child
back-references in both parents, the children-index entry, and the
message itself. -/
def pruneMessageStep (ps : PruneState) (messageIDToDelete : Nat) : PruneState :=
  match ps.store.messages messageIDToDelete with
  | none => ps
  | some msg =>
      deleteMessage msg.messageID
        (deleteChildren msg.messageID
          (deleteChild msg.parent2 msg.messageID
            (deleteChild msg.parent1 msg.messageID ps)))

/-- pruneMessages: the Go version folds over a `map[string]struct{}` in
unspecified order and returns its size; the set is modelled as a list
and the returned count is the list length, which no caller inspects. -/
def pruneMessages (messageIDsToDelete : List Nat) (ps : PruneState) : PruneState :=
  messageIDsToDelete.foldl pruneMessageStep ps

/-- The per-hash decision of pruneUnconfirmedTransactions: keep hashes
whose message is already gone or confirmed, and hashes whose transaction
may be a milestone transaction and whose bundles contain a milestone
bundle; everything else is marked for deletion. -/
def shouldPruneUnconfirmed (st : StoreState) (txHash : Nat) : Bool :=
  match st.messages txHash with
  | none => false
  | some msg =>
      if msg.isConfirmed then false
      else if msg.maybeMilestoneTx then
        match st.bundles txHash with
        | some bndls => if bndls.any (fun b => b.isMilestone) then false else true
        | none => true
      else true

/-- Builds txsToCheckMap: iterate the unconfirmed IDs of the index,
skipping hashes already collected, collecting those that should be
pruned. Go map insertion order is modelled as append order. -/
def collectUnconfirmedToCheck (st : StoreState) (hashes : List Nat) : List Nat :=
  hashes.foldl
    (fun acc txHash =>
      if txHash ∈ acc then acc
      else if shouldPruneUnconfirmed st txHash then acc ++ [txHash] else acc)
    []

/-- pruneUnconfirmedTransactions: collect the unconfirmed transactions
still present, not confirmed and not part of a milestone bundle, prune
them, then delete the unconfirmed-index entries for the index. The two
returned counters are only logged and are omitted. -/
def pruneUnconfirmedTransactions (targetIndex : Nat) (ps : PruneState) : PruneState :=
  let txsToCheck := collectUnconfirmedToCheck ps.store (ps.store.unconfirmedIDs targetIndex)
  deleteUnconfirmedMessages targetIndex (pruneMessages txsToCheck ps)

/-- pruneMilestone: delete the ledger diff, then the milestone. -/
def pruneMilestone (milestoneIndex : Nat) (ps : PruneState) : PruneState :=
  deleteMilestone milestoneIndex (deleteLedgerDiffForMilestone milestoneIndex ps)

/-- The milestone loop of pruneDatabase over the remaining indexes.
`abortFired i` is the outcome of the non-blocking select on the abort
channel at the top of the iteration for index `i`. `traverseCone`
abstracts `dag.TraverseParents` with the hooks pruneDatabase passes.

Modelled from the spec: the DAG traversal helper is not part of the
sources; per the traversal contract it yields each visited message ID
exactly once to the consumer (here keyed by the start message ID), or an
error, in which case the milestone is logged and skipped. A missing
milestone is likewise logged and skipped. A completed iteration advances
PruningIndex to the milestone, persists the snapshot record and emits
PruningMilestoneIndexChanged. -/
def pruneLoop (abortFired : Nat → Bool) (traverseCone : Nat → Except Unit (List Nat)) :
    List Nat → SnapshotInfo → PruneState →
      Except PruneError Unit × SnapshotInfo × PruneState
  | [], snapshotInfo, ps => (Except.ok (), snapshotInfo, ps)
  | milestoneIndex :: rest, snapshotInfo, ps =>
      if abortFired milestoneIndex then
        (Except.error PruneError.pruningAborted, snapshotInfo, ps)
      else
        let ps1 := pruneUnconfirmedTransactions milestoneIndex ps
        match ps1.store.milestones milestoneIndex with
        | none => pruneLoop abortFired traverseCone rest snapshotInfo ps1
        | some cachedMs =>
            match traverseCone cachedMs.messageID with
            | Except.error _ => pruneLoop abortFired traverseCone rest snapshotInfo ps1
            | Except.ok msgsToCheck =>
                let ps2 := pruneMessages msgsToCheck ps1
                let ps3 := pruneMilestone milestoneIndex ps2
                let snapshotInfo' := { snapshotInfo with pruningIndex := milestoneIndex }
                let ps4 := setSnapshotInfo snapshotInfo' ps3
                let ps5 := emitAction ps4
                  (PruneAction.pruningMilestoneIndexChanged milestoneIndex)
                pruneLoop abortFired traverseCone rest snapshotInfo' ps5

/-- pruneDatabase. `solidEntryPointCheckThresholdPast` is the configured
constant; `getSolidEntryPoints` abstracts the entry-point computation.

Modelled from the spec: getSolidEntryPoints is not part of the sources;
per the spec it computes the new `(messageID, index)` pairs for the
target index honouring the abort signal (returning PruningAborted when
cancelled) and performs no store mutation. The `isPruning` flag and the
entry-point write lock have no observable effect in this sequential
model and are omitted. milestone.Index is uint32 in the source; the
subtraction computing targetIndexMax is reached only when the preceding
guard established `snapshotIndex ≥ threshold + 51`, where natural and
uint32 subtraction agree. -/
def pruneDatabase (solidEntryPointCheckThresholdPast : Nat)
    (getSolidEntryPoints : Nat → Except PruneError (List (Nat × Nat)))
    (traverseCone : Nat → Except Unit (List Nat))
    (abortFired : Nat → Bool)
    (targetIndex : Nat) (st : StoreState) : Except PruneError Unit × PruneState :=
  let ps0 : PruneState := { store := st, trace := [] }
  match st.snapshotInfo with
  | none => (Except.error PruneError.noSnapshotInfoPanic, ps0)
  | some snapshotInfo =>
      if snapshotInfo.snapshotIndex <
          solidEntryPointCheckThresholdPast + AdditionalPruningThreshold + 1 then
        (Except.error PruneError.notEnoughHistory, ps0)
      else
        let targetIndexMax := snapshotInfo.snapshotIndex -
          solidEntryPointCheckThresholdPast - AdditionalPruningThreshold - 1
        let target := if targetIndex > targetIndexMax then targetIndexMax else targetIndex
        if snapshotInfo.pruningIndex ≥ target then
          (Except.error PruneError.noPruningNeeded, ps0)
        else if snapshotInfo.entryPointIndex + AdditionalPruningThreshold + 1 > target then
          (Except.error PruneError.notEnoughHistory, ps0)
        else
          match getSolidEntryPoints target with
          | Except.error e => (Except.error e, ps0)
          | Except.ok newSolidEntryPoints =>
              let ps1 := resetSolidEntryPoints ps0
              let ps2 := newSolidEntryPoints.foldl
                (fun acc (p : Nat × Nat) => solidEntryPointsAdd p.1 p.2 acc) ps1
              let ps3 := storeSolidEntryPoints ps2
              let info1 := { snapshotInfo with entryPointIndex := target }
              let ps4 := setSnapshotInfo info1 ps3
              let ps5 := pruneUnconfirmedTransactions snapshotInfo.pruningIndex ps4
              match pruneLoop abortFired traverseCone
                  (List.range' (snapshotInfo.pruningIndex + 1)
                    (target - snapshotInfo.pruningIndex)) info1 ps5 with
              | (Except.error e, _, ps6) => (Except.error e, ps6)
              | (Except.ok _, _, ps6) => (Except.ok (), runGarbageCollection ps6)

/-- The store is content addressed: a message is filed under its own ID. -/
def storeWF (st : StoreState) : Prop :=
  ∀ id msg, st.messages id = some msg → msg.messageID = id

theorem pruneMessageStep_absent (ps : PruneState) (id : Nat)
    (h : ps.store.messages id = none) : pruneMessageStep ps id = ps := by
  simp [pruneMessageStep, h]

theorem pruneMessageStep_absent_preserved (ps : PruneState) (id x : Nat)
    (h : ps.store.messages x = none) :
    (pruneMessageStep ps id).store.messages x = none := by
  unfold pruneMessageStep
  cases hm : ps.store.messages id with
  | none => exact h
  | some msg =>
      simp only [deleteMessage, deleteChildren, deleteChild, emitAction]
      by_cases hx : x = msg.messageID
      · simp [updateFn, hx]
      · simp [updateFn, hx, h]

theorem pruneMessageStep_wf (ps : PruneState) (id : Nat)
    (h : storeWF ps.store) : storeWF (pruneMessageStep ps id).store := by
  unfold pruneMessageStep
  cases hm : ps.store.messages id with
  | none => exact h
  | some msg =>
      intro y m hy
      simp only [deleteMessage, deleteChildren, deleteChild, emitAction,
        updateFn] at hy
      by_cases hxy : y = msg.messageID
      · simp [hxy] at hy
      · simp [hxy] at hy
        exact h y m hy

theorem pruneMessageStep_deletes (ps : PruneState) (id : Nat) (msg : Message)
    (hWF : storeWF ps.store) (h : ps.store.messages id = some msg) :
    (pruneMessageStep ps id).store.messages id = none := by
  have hid : msg.messageID = id := hWF id msg h
  unfold pruneMessageStep
  rw [h]
  simp [deleteMessage, deleteChildren, deleteChild, emitAction, updateFn, hid]

theorem pruneMessageStep_other (ps : PruneState) (id x : Nat)
    (hWF : storeWF ps.store) (hne : id ≠ x) :
    (pruneMessageStep ps id).store.messages x = ps.store.messages x := by
  unfold pruneMessageStep
  cases hm : ps.store.messages id with
  | none => rfl
  | some msg =>
      have hid : msg.messageID = id := hWF id msg hm
      have hxne : x ≠ msg.messageID := by
        rw [hid]
        exact fun hh => hne hh.symm
      simp [deleteMessage, deleteChildren, deleteChild, emitAction, updateFn, hxne]

theorem pruneMessages_wf (ids : List Nat) (ps : PruneState)
    (h : storeWF ps.store) : storeWF (pruneMessages ids ps).store := by
  induction ids generalizing ps with
  | nil => exact h
  | cons hd tl ih => exact ih _ (pruneMessageStep_wf ps hd h)

theorem pruneMessages_absent_preserved (ids : List Nat) (ps : PruneState)
    (x : Nat) (h : ps.store.messages x = none) :
    (pruneMessages ids ps).store.messages x = none := by
  induction ids generalizing ps with
  | nil => exact h
  | cons hd tl ih => exact ih _ (pruneMessageStep_absent_preserved ps hd x h)

theorem pruneMessages_all_absent (ids : List Nat) (ps : PruneState)
    (hWF : storeWF ps.store) :
    ∀ id ∈ ids, (pruneMessages ids ps).store.messages id = none := by
  induction ids generalizing ps with
  | nil => intro id hid; cases hid
  | cons hd tl ih =>
      intro id hid
      rcases List.mem_cons.mp hid with hcase | hcase
      · subst hcase
        cases hm : ps.store.messages id with
        | none =>
            exact pruneMessages_absent_preserved tl _ id
              (by rw [pruneMessageStep_absent ps id hm]; exact hm)
        | some msg =>
            exact pruneMessages_absent_preserved tl _ id
              (pruneMessageStep_deletes ps id msg hWF hm)
      · exact ih _ (pruneMessageStep_wf ps hd hWF) id hcase

theorem pruneMessages_noop (ids : List Nat) (ps : PruneState)
    (h : ∀ id ∈ ids, ps.store.messages id = none) :
    pruneMessages ids ps = ps := by
  induction ids generalizing ps with
  | nil => rfl
  | cons hd tl ih =>
      show pruneMessages tl (pruneMessageStep ps hd) = ps
      rw [pruneMessageStep_absent ps hd (h hd (List.mem_cons_self hd tl))]
      exact ih ps fun id hid => h id (List.mem_cons_of_mem hd hid)

theorem pruneMessages_other (ids : List Nat) (ps : PruneState) (x : Nat)
    (hWF : storeWF ps.store) (hni : x ∉ ids) :
    (pruneMessages ids ps).store.messages x = ps.store.messages x := by
  induction ids generalizing ps with
  | nil => rfl
  | cons hd tl ih =>
      show (pruneMessages tl (pruneMessageStep ps hd)).store.messages x = _
      rw [ih _ (pruneMessageStep_wf ps hd hWF) fun hh => hni (List.mem_cons_of_mem hd hh)]
      exact pruneMessageStep_other ps hd x hWF fun hh => hni (hh ▸ List.mem_cons_self hd tl)

theorem collect_mem_shouldPrune (st : StoreState) (l : List Nat) (x : Nat) :
    x ∈ collectUnconfirmedToCheck st l → shouldPruneUnconfirmed st x = true := by
  have haux : ∀ (l : List Nat) (acc : List Nat),
      x ∈ l.foldl (fun acc txHash =>
        if txHash ∈ acc then acc
        else if shouldPruneUnconfirmed st txHash then acc ++ [txHash] else acc) acc →
      x ∈ acc ∨ shouldPruneUnconfirmed st x = true := by
    intro l
    induction l with
    | nil => intro acc h; exact Or.inl h
    | cons hd tl ih =>
        intro acc h
        simp only [List.foldl_cons] at h
        by_cases hmem : hd ∈ acc
        · rw [if_pos hmem] at h
          exact ih acc h
        · rw [if_neg hmem] at h
          by_cases hsp : shouldPruneUnconfirmed st hd = true
          · rw [if_pos hsp] at h
            rcases ih _ h with hin | hout
            · rcases List.mem_append.mp hin with hin2 | hin2
              · exact Or.inl hin2
              · rcases List.mem_singleton.mp hin2 with rfl
                exact Or.inr hsp
            · exact Or.inr hout
          · rw [if_neg hsp] at h
            exact ih acc h
  intro h
  rcases haux l [] h with hin | hout
  · cases hin
  · exact hout

theorem deleteUnconfirmedMessages_messages (idx : Nat) (ps : PruneState) :
    (deleteUnconfirmedMessages idx ps).store.messages = ps.store.messages := rfl

/-- C9: pruneMessages is idempotent per message. A message ID absent from
the store is skipped without any store mutation, and — on a
content-addressed store — running pruneMessages twice on the same set
produces exactly the state (store and action trace) of running it once. -/
theorem pruneMessages_idempotent (ids : List Nat) (ps : PruneState)
    (hWF : storeWF ps.store) :
    (∀ id, ps.store.messages id = none → pruneMessageStep ps id = ps) ∧
    pruneMessages ids (pruneMessages ids ps) = pruneMessages ids ps := by
  constructor
  · intro id h
    exact pruneMessageStep_absent ps id h
  · exact pruneMessages_noop ids _ (pruneMessages_all_absent ids ps hWF)

/-- Witness for C9: a store holding message 5 and nothing else; ID 9 is
absent and its step is the identity, and pruning {5, 9} twice equals
pruning it once. -/
theorem pruneMessages_idempotent_witness :
    (pruneMessageStep
        { store :=
            { snapshotInfo := none
              messages := fun x => if x = 5 then some ⟨5, 1, 2, false, false⟩ else none
              bundles := fun _ => none
              unconfirmedIDs := fun _ => []
              children := fun _ => []
              milestones := fun _ => none
              ledgerDiffs := fun _ => false
              solidEntryPoints := [] }
          trace := [] } 9 =
      { store :=
          { snapshotInfo := none
            messages := fun x => if x = 5 then some ⟨5, 1, 2, false, false⟩ else none
            bundles := fun _ => none
            unconfirmedIDs := fun _ => []
            children := fun _ => []
            milestones := fun _ => none
            ledgerDiffs := fun _ => false
            solidEntryPoints := [] }
        trace := [] }) ∧
    (pruneMessages [5, 9]
        (pruneMessages [5, 9]
          { store :=
              { snapshotInfo := none
                messages := fun x => if x = 5 then some ⟨5, 1, 2, false, false⟩ else none
                bundles := fun _ => none
                unconfirmedIDs := fun _ => []
                children := fun _ => []
                milestones := fun _ => none
                ledgerDiffs := fun _ => false
                solidEntryPoints := [] }
            trace := [] }) =
      pruneMessages [5, 9]
        { store :=
            { snapshotInfo := none
              messages := fun x => if x = 5 then some ⟨5, 1, 2, false, false⟩ else none
              bundles := fun _ => none
              unconfirmedIDs := fun _ => []
              children := fun _ => []
              milestones := fun _ => none
              ledgerDiffs := fun _ => false
              solidEntryPoints := [] }
          trace := [] }) := by
  have hWF : storeWF
      { snapshotInfo := none
        messages := fun x => if x = 5 then some ⟨5, 1, 2, false, false⟩ else none
        bundles := fun _ => none
        unconfirmedIDs := fun _ => []
        children := fun _ => []
        milestones := fun _ => none
        ledgerDiffs := fun _ => false
        solidEntryPoints := [] } := by
    intro id msg h
    by_cases hid : id = 5
    · subst hid
      simp at h
      rw [← h]
    · simp [hid] at h
  have hth := pruneMessages_idempotent [5, 9]
    { store :=
        { snapshotInfo := none
          messages := fun x => if x = 5 then some ⟨5, 1, 2, false, false⟩ else none
          bundles := fun _ => none
          unconfirmedIDs := fun _ => []
          children := fun _ => []
          milestones := fun _ => none
          ledgerDiffs := fun _ => false
          solidEntryPoints := [] }
      trace := [] } hWF
  exact ⟨hth.1 9 rfl, hth.2⟩

/-- C8: an unconfirmed message that is part of a milestone bundle is
neither marked for deletion nor deleted by pruneUnconfirmedTransactions:
it is absent from the collected deletion set and still present,
unchanged, in the store afterwards. `IsMaybeMilestoneTx` is an external
codec predicate; per the spec it covers every transaction that could be
part of a milestone bundle, so membership in a milestone bundle comes
with `maybeMilestoneTx = true`. -/
theorem milestone_bundle_survives (i txHash : Nat) (ps : PruneState)
    (msg : Message) (bndls : List Bundle)
    (hWF : storeWF ps.store)
    (hmsg : ps.store.messages txHash = some msg)
    (hmaybe : msg.maybeMilestoneTx = true)
    (hbndl : ps.store.bundles txHash = some bndls)
    (hms : bndls.any (fun b => b.isMilestone) = true) :
    txHash ∉ collectUnconfirmedToCheck ps.store (ps.store.unconfirmedIDs i) ∧
    (pruneUnconfirmedTransactions i ps).store.messages txHash = some msg := by
  have hsp : shouldPruneUnconfirmed ps.store txHash = false := by
    cases hc : msg.isConfirmed <;>
      simp [shouldPruneUnconfirmed, hmsg, hmaybe, hbndl, hms, hc]
  have hnotin : txHash ∉ collectUnconfirmedToCheck ps.store (ps.store.unconfirmedIDs i) := by
    intro hin
    rw [collect_mem_shouldPrune ps.store _ txHash hin] at hsp
    cases hsp
  refine ⟨hnotin, ?_⟩
  show (deleteUnconfirmedMessages i (pruneMessages _ ps)).store.messages txHash = some msg
  rw [deleteUnconfirmedMessages_messages]
  rw [pruneMessages_other _ ps txHash hWF hnotin]
  exact hmsg

/-- Witness for C8: index 3 lists the unconfirmed hash 5 whose message
is part of a milestone bundle; it survives the unconfirmed-pruning step. -/
theorem milestone_bundle_survives_witness :
    5 ∉ collectUnconfirmedToCheck
        { snapshotInfo := none
          messages := fun x => if x = 5 then some ⟨5, 1, 2, false, true⟩ else none
          bundles := fun x => if x = 5 then some [⟨true⟩] else none
          unconfirmedIDs := fun x => if x = 3 then [5] else []
          children := fun _ => []
          milestones := fun _ => none
          ledgerDiffs := fun _ => false
          solidEntryPoints := [] }
        (({ snapshotInfo := none
            messages := fun x => if x = 5 then some ⟨5, 1, 2, false, true⟩ else none
            bundles := fun x => if x = 5 then some [⟨true⟩] else none
            unconfirmedIDs := fun x => if x = 3 then [5] else []
            children := fun _ => []
            milestones := fun _ => none
            ledgerDiffs := fun _ => false
            solidEntryPoints := [] : StoreState }).unconfirmedIDs 3) ∧
    (pruneUnconfirmedTransactions 3
        { store :=
            { snapshotInfo := none
              messages := fun x => if x = 5 then some ⟨5, 1, 2, false, true⟩ else none
              bundles := fun x => if x = 5 then some [⟨true⟩] else none
              unconfirmedIDs := fun x => if x = 3 then [5] else []
              children := fun _ => []
              milestones := fun _ => none
              ledgerDiffs := fun _ => false
              solidEntryPoints := [] }
          trace := [] }).store.messages 5 = some ⟨5, 1, 2, false, true⟩ := by
  have hWF : storeWF
      { snapshotInfo := none
        messages := fun x => if x = 5 then some ⟨5, 1, 2, false, true⟩ else none
        bundles := fun x => if x = 5 then some [⟨true⟩] else none
        unconfirmedIDs := fun x => if x = 3 then [5] else []
        children := fun _ => []
        milestones := fun _ => none
        ledgerDiffs := fun _ => false
        solidEntryPoints := [] } := by
    intro id msg h
    by_cases hid : id = 5
    · subst hid
      simp at h
      rw [← h]
    · simp [hid] at h
  exact milestone_bundle_survives 3 5
    { store :=
        { snapshotInfo := none
          messages := fun x => if x = 5 then some ⟨5, 1, 2, false, true⟩ else none
          bundles := fun x => if x = 5 then some [⟨true⟩] else none
          unconfirmedIDs := fun x => if x = 3 then [5] else []
          children := fun _ => []
          milestones := fun _ => none
          ledgerDiffs := fun _ => false
          solidEntryPoints := [] }
      trace := [] }
    ⟨5, 1, 2, false, true⟩ [⟨true⟩] hWF rfl rfl rfl rfl

def PruneAction.isDeleteMilestone : PruneAction → Bool
  | PruneAction.deleteMilestone _ => true
  | _ => false

theorem pruneLoop_nil (ab : Nat → Bool) (tc : Nat → Except Unit (List Nat))
    (info : SnapshotInfo) (ps : PruneState) :
    pruneLoop ab tc [] info ps = (Except.ok (), info, ps) := rfl

theorem pruneLoop_cons_abort (ab : Nat → Bool) (tc : Nat → Except Unit (List Nat))
    (i : Nat) (rest : List Nat) (info : SnapshotInfo) (ps : PruneState)
    (h : ab i = true) :
    pruneLoop ab tc (i :: rest) info ps =
      (Except.error PruneError.pruningAborted, info, ps) := by
  simp [pruneLoop, h]

theorem pruneLoop_cons_missing (ab : Nat → Bool) (tc : Nat → Except Unit (List Nat))
    (i : Nat) (rest : List Nat) (info : SnapshotInfo) (ps : PruneState)
    (hab : ab i = false)
    (hms : (pruneUnconfirmedTransactions i ps).store.milestones i = none) :
    pruneLoop ab tc (i :: rest) info ps =
      pruneLoop ab tc rest info (pruneUnconfirmedTransactions i ps) := by
  simp [pruneLoop, hab, hms]

theorem pruneLoop_cons_traverseErr (ab : Nat → Bool) (tc : Nat → Except Unit (List Nat))
    (i : Nat) (rest : List Nat) (info : SnapshotInfo) (ps : PruneState)
    (ms : Milestone) (e : Unit) (hab : ab i = false)
    (hms : (pruneUnconfirmedTransactions i ps).store.milestones i = some ms)
    (htc : tc ms.messageID = Except.error e) :
    pruneLoop ab tc (i :: rest) info ps =
      pruneLoop ab tc rest info (pruneUnconfirmedTransactions i ps) := by
  simp [pruneLoop, hab, hms, htc]

theorem pruneLoop_cons_ok (ab : Nat → Bool) (tc : Nat → Except Unit (List Nat))
    (i : Nat) (rest : List Nat) (info : SnapshotInfo) (ps : PruneState)
    (ms : Milestone) (cone : List Nat) (hab : ab i = false)
    (hms : (pruneUnconfirmedTransactions i ps).store.milestones i = some ms)
    (htc : tc ms.messageID = Except.ok cone) :
    pruneLoop ab tc (i :: rest) info ps =
      pruneLoop ab tc rest { info with pruningIndex := i }
        (emitAction
          (setSnapshotInfo { info with pruningIndex := i }
            (pruneMilestone i (pruneMessages cone (pruneUnconfirmedTransactions i ps))))
          (PruneAction.pruningMilestoneIndexChanged i)) := by
  simp [pruneLoop, hab, hms, htc]

theorem pruneMessageStep_trace (ps : PruneState) (id : Nat) :
    ∃ t, (pruneMessageStep ps id).trace = ps.trace ++ t := by
  unfold pruneMessageStep
  cases ps.store.messages id with
  | none => exact ⟨[], by simp⟩
  | some msg =>
      exact ⟨[PruneAction.deleteChild msg.parent1 msg.messageID,
        PruneAction.deleteChild msg.parent2 msg.messageID,
        PruneAction.deleteChildren msg.messageID,
        PruneAction.deleteMessage msg.messageID],
        by simp [deleteMessage, deleteChildren, deleteChild, emitAction]⟩

theorem pruneMessages_trace (ids : List Nat) (ps : PruneState) :
    ∃ t, (pruneMessages ids ps).trace = ps.trace ++ t := by
  induction ids generalizing ps with
  | nil => exact ⟨[], by simp [pruneMessages]⟩
  | cons hd tl ih =>
      obtain ⟨t1, ht1⟩ := pruneMessageStep_trace ps hd
      obtain ⟨t2, ht2⟩ := ih (pruneMessageStep ps hd)
      exact ⟨t1 ++ t2, by
        show (pruneMessages tl (pruneMessageStep ps hd)).trace = _
        rw [ht2, ht1, List.append_assoc]⟩

theorem pruneUnconfirmedTransactions_trace (i : Nat) (ps : PruneState) :
    ∃ t, (pruneUnconfirmedTransactions i ps).trace = ps.trace ++ t := by
  obtain ⟨t1, ht1⟩ := pruneMessages_trace
    (collectUnconfirmedToCheck ps.store (ps.store.unconfirmedIDs i)) ps
  exact ⟨t1 ++ [PruneAction.deleteUnconfirmed i], by
    show (deleteUnconfirmedMessages i _).trace = _
    simp [deleteUnconfirmedMessages, emitAction, ht1]⟩

theorem pruneLoop_trace (ab : Nat → Bool) (tc : Nat → Except Unit (List Nat))
    (l : List Nat) : ∀ (info : SnapshotInfo) (ps : PruneState),
    ∃ t, (pruneLoop ab tc l info ps).2.2.trace = ps.trace ++ t := by
  induction l with
  | nil => exact fun info ps => ⟨[], by simp [pruneLoop_nil]⟩
  | cons i rest ih =>
      intro info ps
      cases hab : ab i with
      | true => exact ⟨[], by rw [pruneLoop_cons_abort ab tc i rest info ps hab]; simp⟩
      | false =>
          obtain ⟨t1, ht1⟩ := pruneUnconfirmedTransactions_trace i ps
          cases hms : (pruneUnconfirmedTransactions i ps).store.milestones i with
          | none =>
              obtain ⟨t2, ht2⟩ := ih info (pruneUnconfirmedTransactions i ps)
              exact ⟨t1 ++ t2, by
                rw [pruneLoop_cons_missing ab tc i rest info ps hab hms, ht2, ht1,
                  List.append_assoc]⟩
          | some ms =>
              cases htc : tc ms.messageID with
              | error e =>
                  obtain ⟨t2, ht2⟩ := ih info (pruneUnconfirmedTransactions i ps)
                  exact ⟨t1 ++ t2, by
                    rw [pruneLoop_cons_traverseErr ab tc i rest info ps ms e hab hms htc,
                      ht2, ht1, List.append_assoc]⟩
              | ok cone =>
                  obtain ⟨t2, ht2⟩ := pruneMessages_trace cone
                    (pruneUnconfirmedTransactions i ps)
                  obtain ⟨t3, ht3⟩ := ih { info with pruningIndex := i }
                    (emitAction
                      (setSnapshotInfo { info with pruningIndex := i }
                        (pruneMilestone i (pruneMessages cone
                          (pruneUnconfirmedTransactions i ps))))
                      (PruneAction.pruningMilestoneIndexChanged i))
                  refine ⟨t1 ++ (t2 ++ ([PruneAction.deleteLedgerDiff i,
                    PruneAction.deleteMilestone i,
                    PruneAction.setSnapshotInfo { info with pruningIndex := i },
                    PruneAction.pruningMilestoneIndexChanged i] ++ t3)), ?_⟩
                  rw [pruneLoop_cons_ok ab tc i rest info ps ms cone hab hms htc, ht3]
                  simp [emitAction, setSnapshotInfo, pruneMilestone, deleteMilestone,
                    deleteLedgerDiffForMilestone, ht2, ht1]

theorem sep_fold_trace (eps : List (Nat × Nat)) (ps : PruneState) :
    (eps.foldl (fun acc p => solidEntryPointsAdd p.1 p.2 acc) ps).trace =
      ps.trace ++ eps.map (fun p => PruneAction.addSolidEntryPoint p.1 p.2) := by
  induction eps generalizing ps with
  | nil => simp
  | cons hd tl ih =>
      simp only [List.foldl_cons, List.map_cons]
      rw [ih]
      simp [solidEntryPointsAdd, emitAction]

/-- The main path of pruneDatabase, with all guards discharged, reduced
to its phase structure. -/
theorem pruneDatabase_run (sepPast : Nat)
    (gsep : Nat → Except PruneError (List (Nat × Nat)))
    (tc : Nat → Except Unit (List Nat)) (ab : Nat → Bool)
    (targetIndex tgt : Nat) (st : StoreState) (info : SnapshotInfo)
    (eps : List (Nat × Nat))
    (hinfo : st.snapshotInfo = some info)
    (hguard1 : ¬ info.snapshotIndex < sepPast + AdditionalPruningThreshold + 1)
    (htgt : tgt = if targetIndex >
        info.snapshotIndex - sepPast - AdditionalPruningThreshold - 1 then
        info.snapshotIndex - sepPast - AdditionalPruningThreshold - 1 else targetIndex)
    (hpt : ¬ info.pruningIndex ≥ tgt)
    (hept : ¬ info.entryPointIndex + AdditionalPruningThreshold + 1 > tgt)
    (hgsep : gsep tgt = Except.ok eps) :
    pruneDatabase sepPast gsep tc ab targetIndex st =
      (match pruneLoop ab tc
          (List.range' (info.pruningIndex + 1) (tgt - info.pruningIndex))
          { info with entryPointIndex := tgt }
          (pruneUnconfirmedTransactions info.pruningIndex
            (setSnapshotInfo { info with entryPointIndex := tgt }
              (storeSolidEntryPoints
                (eps.foldl (fun acc p => solidEntryPointsAdd p.1 p.2 acc)
                  (resetSolidEntryPoints { store := st, trace := [] }))))) with
        | (Except.error e, _, ps6) => (Except.error e, ps6)
        | (Except.ok _, _, ps6) => (Except.ok (), runGarbageCollection ps6)) := by
  subst htgt
  simp only [pruneDatabase, hinfo]
  rw [if_neg hguard1, if_neg hpt, if_neg hept, hgsep]

theorem take_length_append {α : Type} (l₁ l₂ : List α) :
    (l₁ ++ l₂).take l₁.length = l₁ := by
  simp

/-- C3: in every pruneDatabase run that passes its guards, there is a
prefix of the action trace that contains the persisting of the new solid
entry points (StoreSolidEntryPoints) and the persisting of SnapshotInfo
with EntryPointIndex = targetIndex, and contains no deletion of cone
data — so every deletion of unconfirmed entries, messages,
children-index entries, milestones or ledger diffs happens strictly
after the new EntryPointIndex is persisted. -/
theorem entry_points_persisted_before_deletions (sepPast : Nat)
    (gsep : Nat → Except PruneError (List (Nat × Nat)))
    (tc : Nat → Except Unit (List Nat)) (ab : Nat → Bool)
    (targetIndex tgt : Nat) (st : StoreState) (info : SnapshotInfo)
    (eps : List (Nat × Nat))
    (hinfo : st.snapshotInfo = some info)
    (hguard1 : ¬ info.snapshotIndex < sepPast + AdditionalPruningThreshold + 1)
    (htgt : tgt = if targetIndex >
        info.snapshotIndex - sepPast - AdditionalPruningThreshold - 1 then
        info.snapshotIndex - sepPast - AdditionalPruningThreshold - 1 else targetIndex)
    (hpt : ¬ info.pruningIndex ≥ tgt)
    (hept : ¬ info.entryPointIndex + AdditionalPruningThreshold + 1 > tgt)
    (hgsep : gsep tgt = Except.ok eps) :
    ∃ n,
      (∀ a ∈ (pruneDatabase sepPast gsep tc ab targetIndex st).2.trace.take n,
        a.isConeDeletion = false) ∧
      PruneAction.storeSolidEntryPoints ∈
        (pruneDatabase sepPast gsep tc ab targetIndex st).2.trace.take n ∧
      PruneAction.setSnapshotInfo { info with entryPointIndex := tgt } ∈
        (pruneDatabase sepPast gsep tc ab targetIndex st).2.trace.take n := by
  rw [pruneDatabase_run sepPast gsep tc ab targetIndex tgt st info eps hinfo
    hguard1 htgt hpt hept hgsep]
  have hps4 : (setSnapshotInfo { info with entryPointIndex := tgt }
      (storeSolidEntryPoints
        (eps.foldl (fun acc p => solidEntryPointsAdd p.1 p.2 acc)
          (resetSolidEntryPoints { store := st, trace := [] })))).trace =
      (PruneAction.resetSolidEntryPoints ::
        eps.map (fun p => PruneAction.addSolidEntryPoint p.1 p.2)) ++
      [PruneAction.storeSolidEntryPoints,
       PruneAction.setSnapshotInfo { info with entryPointIndex := tgt }] := by
    simp [setSnapshotInfo, storeSolidEntryPoints, emitAction, sep_fold_trace,
      resetSolidEntryPoints]
  obtain ⟨t1, ht1⟩ := pruneUnconfirmedTransactions_trace info.pruningIndex
    (setSnapshotInfo { info with entryPointIndex := tgt }
      (storeSolidEntryPoints
        (eps.foldl (fun acc p => solidEntryPointsAdd p.1 p.2 acc)
          (resetSolidEntryPoints { store := st, trace := [] }))))
  obtain ⟨t2, ht2⟩ := pruneLoop_trace ab tc
    (List.range' (info.pruningIndex + 1) (tgt - info.pruningIndex))
    { info with entryPointIndex := tgt }
    (pruneUnconfirmedTransactions info.pruningIndex
      (setSnapshotInfo { info with entryPointIndex := tgt }
        (storeSolidEntryPoints
          (eps.foldl (fun acc p => solidEntryPointsAdd p.1 p.2 acc)
            (resetSolidEntryPoints { store := st, trace := [] })))))
  rcases hloop : pruneLoop ab tc
      (List.range' (info.pruningIndex + 1) (tgt - info.pruningIndex))
      { info with entryPointIndex := tgt }
      (pruneUnconfirmedTransactions info.pruningIndex
        (setSnapshotInfo { info with entryPointIndex := tgt }
          (storeSolidEntryPoints
            (eps.foldl (fun acc p => solidEntryPointsAdd p.1 p.2 acc)
              (resetSolidEntryPoints { store := st, trace := [] }))))) with
    ⟨res, info2, ps6⟩
  rw [hloop] at ht2
  simp only at ht2
  rw [hloop]
  have hmain : ∀ (tr tl : List PruneAction),
      tr = ((PruneAction.resetSolidEntryPoints ::
          eps.map (fun p => PruneAction.addSolidEntryPoint p.1 p.2)) ++
        [PruneAction.storeSolidEntryPoints,
         PruneAction.setSnapshotInfo { info with entryPointIndex := tgt }]) ++
        tl →
      (∀ a ∈ tr.take ((PruneAction.resetSolidEntryPoints ::
          eps.map (fun p => PruneAction.addSolidEntryPoint p.1 p.2)) ++
        [PruneAction.storeSolidEntryPoints,
         PruneAction.setSnapshotInfo { info with entryPointIndex := tgt }]).length,
        a.isConeDeletion = false) ∧
      PruneAction.storeSolidEntryPoints ∈ tr.take ((PruneAction.resetSolidEntryPoints ::
          eps.map (fun p => PruneAction.addSolidEntryPoint p.1 p.2)) ++
        [PruneAction.storeSolidEntryPoints,
         PruneAction.setSnapshotInfo { info with entryPointIndex := tgt }]).length ∧
      PruneAction.setSnapshotInfo { info with entryPointIndex := tgt } ∈
        tr.take ((PruneAction.resetSolidEntryPoints ::
          eps.map (fun p => PruneAction.addSolidEntryPoint p.1 p.2)) ++
        [PruneAction.storeSolidEntryPoints,
         PruneAction.setSnapshotInfo { info with entryPointIndex := tgt }]).length := by
    intro tr tl htr
    subst htr
    rw [take_length_append]
    refine ⟨?_, ?_, ?_⟩
    · intro a ha
      simp only [List.mem_append, List.mem_cons, List.mem_map,
        List.mem_singleton, List.not_mem_nil, or_false] at ha
      rcases ha with (rfl | ⟨p, _, rfl⟩) | (rfl | rfl) <;> rfl
    · simp
    · simp
  cases res with
  | error e =>
      refine ⟨((PruneAction.resetSolidEntryPoints ::
          eps.map (fun p => PruneAction.addSolidEntryPoint p.1 p.2)) ++
        [PruneAction.storeSolidEntryPoints,
         PruneAction.setSnapshotInfo { info with entryPointIndex := tgt }]).length,
        ?_⟩
      exact hmain ps6.trace (t1 ++ t2) (by rw [ht2, ht1, hps4, List.append_assoc])
  | ok u =>
      refine ⟨((PruneAction.resetSolidEntryPoints ::
          eps.map (fun p => PruneAction.addSolidEntryPoint p.1 p.2)) ++
        [PruneAction.storeSolidEntryPoints,
         PruneAction.setSnapshotInfo { info with entryPointIndex := tgt }]).length,
        ?_⟩
      refine hmain (runGarbageCollection ps6).trace (t1 ++ (t2 ++ [PruneAction.runGC])) ?_
      show ps6.trace ++ [PruneAction.runGC] = _
      rw [ht2, ht1, hps4]
      simp [List.append_assoc]

/-- Witness for C3 at a concrete run: SnapshotInfo = {1000, 800, 800},
threshold 50, target 851, one new solid entry point. -/
theorem entry_points_persisted_before_deletions_witness :
    ∃ n,
      (∀ a ∈ (pruneDatabase 50 (fun _ => Except.ok [(7, 851)])
          (fun _ => Except.ok []) (fun _ => false) 851
          { snapshotInfo := some ⟨1000, 800, 800⟩
            messages := fun _ => none
            bundles := fun _ => none
            unconfirmedIDs := fun _ => []
            children := fun _ => []
            milestones := fun _ => none
            ledgerDiffs := fun _ => false
            solidEntryPoints := [] }).2.trace.take n,
        a.isConeDeletion = false) ∧
      PruneAction.storeSolidEntryPoints ∈
        (pruneDatabase 50 (fun _ => Except.ok [(7, 851)])
          (fun _ => Except.ok []) (fun _ => false) 851
          { snapshotInfo := some ⟨1000, 800, 800⟩
            messages := fun _ => none
            bundles := fun _ => none
            unconfirmedIDs := fun _ => []
            children := fun _ => []
            milestones := fun _ => none
            ledgerDiffs := fun _ => false
            solidEntryPoints := [] }).2.trace.take n ∧
      PruneAction.setSnapshotInfo ⟨1000, 800, 851⟩ ∈
        (pruneDatabase 50 (fun _ => Except.ok [(7, 851)])
          (fun _ => Except.ok []) (fun _ => false) 851
          { snapshotInfo := some ⟨1000, 800, 800⟩
            messages := fun _ => none
            bundles := fun _ => none
            unconfirmedIDs := fun _ => []
            children := fun _ => []
            milestones := fun _ => none
            ledgerDiffs := fun _ => false
            solidEntryPoints := [] }).2.trace.take n :=
  entry_points_persisted_before_deletions 50 (fun _ => Except.ok [(7, 851)])
    (fun _ => Except.ok []) (fun _ => false) 851 851
    { snapshotInfo := some ⟨1000, 800, 800⟩
      messages := fun _ => none
      bundles := fun _ => none
      unconfirmedIDs := fun _ => []
      children := fun _ => []
      milestones := fun _ => none
      ledgerDiffs := fun _ => false
      solidEntryPoints := [] }
    ⟨1000, 800, 800⟩ [(7, 851)] rfl (by decide) (by decide) (by decide)
    (by decide) rfl

theorem pruneMessageStep_milestones (ps : PruneState) (id : Nat) :
    (pruneMessageStep ps id).store.milestones = ps.store.milestones := by
  unfold pruneMessageStep
  cases ps.store.messages id <;> rfl

theorem pruneMessages_milestones (ids : List Nat) (ps : PruneState) :
    (pruneMessages ids ps).store.milestones = ps.store.milestones := by
  induction ids generalizing ps with
  | nil => rfl
  | cons hd tl ih =>
      show (pruneMessages tl (pruneMessageStep ps hd)).store.milestones = _
      rw [ih, pruneMessageStep_milestones]

theorem pruneUnconfirmedTransactions_milestones (i : Nat) (ps : PruneState) :
    (pruneUnconfirmedTransactions i ps).store.milestones = ps.store.milestones :=
  pruneMessages_milestones
    (collectUnconfirmedToCheck ps.store (ps.store.unconfirmedIDs i)) ps

theorem pruneMessageStep_trace_dm (ps : PruneState) (id idx : Nat)
    (h : PruneAction.deleteMilestone idx ∈ (pruneMessageStep ps id).trace) :
    PruneAction.deleteMilestone idx ∈ ps.trace := by
  unfold pruneMessageStep at h
  cases hm : ps.store.messages id with
  | none => rw [hm] at h; exact h
  | some msg =>
      rw [hm] at h
      simp only [deleteMessage, deleteChildren, deleteChild, emitAction,
        List.append_assoc, List.mem_append, List.mem_singleton,
        List.mem_cons, List.not_mem_nil, or_false, reduceCtorEq] at h
      simpa using h

theorem pruneMessages_trace_dm (ids : List Nat) (ps : PruneState) (idx : Nat)
    (h : PruneAction.deleteMilestone idx ∈ (pruneMessages ids ps).trace) :
    PruneAction.deleteMilestone idx ∈ ps.trace := by
  induction ids generalizing ps with
  | nil => exact h
  | cons hd tl ih => exact pruneMessageStep_trace_dm ps hd idx (ih _ h)

theorem pruneUnconfirmedTransactions_trace_dm (i : Nat) (ps : PruneState)
    (idx : Nat)
    (h : PruneAction.deleteMilestone idx ∈ (pruneUnconfirmedTransactions i ps).trace) :
    PruneAction.deleteMilestone idx ∈ ps.trace := by
  unfold pruneUnconfirmedTransactions at h
  simp only [deleteUnconfirmedMessages, emitAction, List.mem_append,
    List.mem_singleton, reduceCtorEq, or_false] at h
  exact pruneMessages_trace_dm _ ps idx h

/-- Whether the iteration for milestone index `i` would find its
milestone and traverse its cone successfully, judged on a milestones map
and a traversal behaviour. -/
def milestoneOk (mils : Nat → Option Milestone)
    (tc : Nat → Except Unit (List Nat)) (i : Nat) : Bool :=
  match mils i with
  | none => false
  | some ms =>
      match tc ms.messageID with
      | Except.ok _ => true
      | Except.error _ => false

theorem loop_body_milestones (i : Nat) (info' : SnapshotInfo)
    (cone : List Nat) (ps : PruneState) (j : Nat) (hj : j ≠ i) :
    (emitAction
      (setSnapshotInfo info'
        (pruneMilestone i (pruneMessages cone (pruneUnconfirmedTransactions i ps))))
      (PruneAction.pruningMilestoneIndexChanged i)).store.milestones j =
    ps.store.milestones j := by
  show updateFn
    ((pruneMessages cone (pruneUnconfirmedTransactions i ps)).store.milestones)
    i none j = _
  rw [updateFn_other _ _ _ _ hj, pruneMessages_milestones,
    pruneUnconfirmedTransactions_milestones]

theorem loop_body_snapshotInfo (i : Nat) (info' : SnapshotInfo)
    (cone : List Nat) (ps : PruneState) :
    (emitAction
      (setSnapshotInfo info'
        (pruneMilestone i (pruneMessages cone (pruneUnconfirmedTransactions i ps))))
      (PruneAction.pruningMilestoneIndexChanged i)).store.snapshotInfo =
    some info' := rfl

theorem loop_body_trace_dm (i : Nat) (info' : SnapshotInfo)
    (cone : List Nat) (ps : PruneState) (idx : Nat) (hne : idx ≠ i)
    (h : PruneAction.deleteMilestone idx ∈
      (emitAction
        (setSnapshotInfo info'
          (pruneMilestone i (pruneMessages cone (pruneUnconfirmedTransactions i ps))))
        (PruneAction.pruningMilestoneIndexChanged i)).trace) :
    PruneAction.deleteMilestone idx ∈ ps.trace := by
  simp only [emitAction, setSnapshotInfo, pruneMilestone, deleteMilestone,
    deleteLedgerDiffForMilestone, List.append_assoc, List.mem_append,
    List.mem_singleton, List.mem_cons, List.not_mem_nil, or_false,
    reduceCtorEq, PruneAction.deleteMilestone.injEq, hne] at h
  exact pruneUnconfirmedTransactions_trace_dm i ps idx
    (pruneMessages_trace_dm cone _ idx h)

theorem milestoneOk_inv (mils : Nat → Option Milestone)
    (tc : Nat → Except Unit (List Nat)) (i : Nat)
    (h : milestoneOk mils tc i = true) :
    ∃ ms cone, mils i = some ms ∧ tc ms.messageID = Except.ok cone := by
  unfold milestoneOk at h
  split at h
  · cases h
  · rename_i ms hms
    split at h
    · rename_i cone htc
      exact ⟨ms, cone, hms, htc⟩
    · cases h

theorem milestoneOk_congr (m1 m2 : Nat → Option Milestone)
    (tc : Nat → Except Unit (List Nat)) (i : Nat) (h : m1 i = m2 i) :
    milestoneOk m1 tc i = milestoneOk m2 tc i := by
  unfold milestoneOk
  rw [h]

/-- The milestone loop, when the abort signal first fires at iteration
`m` and every earlier iteration finds its milestone and traverses it:
it returns PruningAborted, PruningIndex has advanced to `m - 1`, that
snapshot record is persisted, and no milestone with index ≥ m was
deleted. -/
theorem pruneLoop_abort_run (ab : Nat → Bool) (tc : Nat → Except Unit (List Nat))
    (m : Nat) :
    ∀ (n a : Nat) (info : SnapshotInfo) (ps : PruneState),
      ab m = true →
      (∀ i, a ≤ i → i < m → ab i = false) →
      a ≤ m → m < a + n →
      (∀ i, a ≤ i → i < m → milestoneOk ps.store.milestones tc i = true) →
      info.pruningIndex + 1 = a →
      ps.store.snapshotInfo = some info →
      (pruneLoop ab tc (List.range' a n) info ps).1 =
          Except.error PruneError.pruningAborted ∧
        (pruneLoop ab tc (List.range' a n) info ps).2.1 =
          { info with pruningIndex := m - 1 } ∧
        (pruneLoop ab tc (List.range' a n) info ps).2.2.store.snapshotInfo =
          some { info with pruningIndex := m - 1 } ∧
        (∀ idx, m ≤ idx →
          PruneAction.deleteMilestone idx ∈
            (pruneLoop ab tc (List.range' a n) info ps).2.2.trace →
          PruneAction.deleteMilestone idx ∈ ps.trace) := by
  intro n
  induction n with
  | zero =>
      intro a info ps _ _ ham hlt _ _ _
      omega
  | succ n ih =>
      intro a info ps habm hbefore ham hlt hok hpi hsnap
      have hr : List.range' a (n + 1) = a :: List.range' (a + 1) n := rfl
      rw [hr]
      by_cases hameq : a = m
      · subst hameq
        rw [pruneLoop_cons_abort ab tc a _ info ps habm]
        have hinfoeq : { info with pruningIndex := a - 1 } = info := by
          have h1 : a - 1 = info.pruningIndex := by omega
          rw [h1]
        exact ⟨rfl, hinfoeq.symm, by rw [hinfoeq]; exact hsnap,
          fun idx _ h => h⟩
      · have halm : a < m := lt_of_le_of_ne ham hameq
        have habA : ab a = false := hbefore a le_rfl halm
        obtain ⟨ms, cone, hms, htc⟩ :=
          milestoneOk_inv ps.store.milestones tc a (hok a le_rfl halm)
        have hms1 : (pruneUnconfirmedTransactions a ps).store.milestones a =
            some ms := by
          rw [pruneUnconfirmedTransactions_milestones]; exact hms
        rw [pruneLoop_cons_ok ab tc a _ info ps ms cone habA hms1 htc]
        have hih := ih (a + 1) { info with pruningIndex := a }
          (emitAction
            (setSnapshotInfo { info with pruningIndex := a }
              (pruneMilestone a (pruneMessages cone
                (pruneUnconfirmedTransactions a ps))))
            (PruneAction.pruningMilestoneIndexChanged a))
          habm
          (fun i h1 h2 => hbefore i (by omega) h2)
          (by omega) (by omega)
          (fun i h1 h2 => by
            rw [milestoneOk_congr _ ps.store.milestones tc i
              (loop_body_milestones a { info with pruningIndex := a }
                cone ps i (by omega))]
            exact hok i (by omega) h2)
          rfl
          (loop_body_snapshotInfo a { info with pruningIndex := a } cone ps)
        refine ⟨hih.1, hih.2.1, hih.2.2.1, ?_⟩
        intro idx hidx h
        exact loop_body_trace_dm a { info with pruningIndex := a } cone ps
          idx (by omega) (hih.2.2.2 idx hidx h)

theorem pruneMessageStep_snapshotInfo (ps : PruneState) (id : Nat) :
    (pruneMessageStep ps id).store.snapshotInfo = ps.store.snapshotInfo := by
  unfold pruneMessageStep
  cases ps.store.messages id <;> rfl

theorem pruneMessages_snapshotInfo (ids : List Nat) (ps : PruneState) :
    (pruneMessages ids ps).store.snapshotInfo = ps.store.snapshotInfo := by
  induction ids generalizing ps with
  | nil => rfl
  | cons hd tl ih =>
      show (pruneMessages tl (pruneMessageStep ps hd)).store.snapshotInfo = _
      rw [ih, pruneMessageStep_snapshotInfo]

theorem pruneUnconfirmedTransactions_snapshotInfo (i : Nat) (ps : PruneState) :
    (pruneUnconfirmedTransactions i ps).store.snapshotInfo = ps.store.snapshotInfo :=
  pruneMessages_snapshotInfo
    (collectUnconfirmedToCheck ps.store (ps.store.unconfirmedIDs i)) ps

theorem sep_fold_milestones (eps : List (Nat × Nat)) (ps : PruneState) :
    ((eps.foldl (fun acc p => solidEntryPointsAdd p.1 p.2 acc) ps)).store.milestones =
      ps.store.milestones := by
  induction eps generalizing ps with
  | nil => rfl
  | cons hd tl ih =>
      simp only [List.foldl_cons]
      rw [ih]
      rfl

set_option maxHeartbeats 1000000 in
/-- C4: when pruneDatabase passes its guards and the abort signal first
fires at the milestone-loop iteration for index m (with every earlier
iteration finding its milestone and traversing it successfully), the
call returns PruningAborted, the persisted SnapshotInfo records
EntryPointIndex = targetIndex and PruningIndex = m - 1 — the last
milestone whose iteration completed — and no milestone with index ≥ m
was deleted. -/
theorem prune_abort_partial_progress (sepPast : Nat)
    (gsep : Nat → Except PruneError (List (Nat × Nat)))
    (tc : Nat → Except Unit (List Nat)) (ab : Nat → Bool)
    (targetIndex tgt m : Nat) (st : StoreState) (info : SnapshotInfo)
    (eps : List (Nat × Nat))
    (hinfo : st.snapshotInfo = some info)
    (hguard1 : ¬ info.snapshotIndex < sepPast + AdditionalPruningThreshold + 1)
    (htgt : tgt = if targetIndex >
        info.snapshotIndex - sepPast - AdditionalPruningThreshold - 1 then
        info.snapshotIndex - sepPast - AdditionalPruningThreshold - 1 else targetIndex)
    (hpt : ¬ info.pruningIndex ≥ tgt)
    (hept : ¬ info.entryPointIndex + AdditionalPruningThreshold + 1 > tgt)
    (hgsep : gsep tgt = Except.ok eps)
    (habm : ab m = true)
    (hbefore : ∀ i, i < m → info.pruningIndex + 1 ≤ i → ab i = false)
    (hm1 : info.pruningIndex + 1 ≤ m) (hm2 : m ≤ tgt)
    (hok : ∀ i, i < m → info.pruningIndex + 1 ≤ i →
      milestoneOk st.milestones tc i = true) :
    (pruneDatabase sepPast gsep tc ab targetIndex st).1 =
        Except.error PruneError.pruningAborted ∧
      (pruneDatabase sepPast gsep tc ab targetIndex st).2.store.snapshotInfo =
        some { info with entryPointIndex := tgt, pruningIndex := m - 1 } ∧
      (∀ idx, m ≤ idx →
        PruneAction.deleteMilestone idx ∉
          (pruneDatabase sepPast gsep tc ab targetIndex st).2.trace) := by
  rw [pruneDatabase_run sepPast gsep tc ab targetIndex tgt st info eps hinfo
    hguard1 htgt hpt hept hgsep]
  have hmil : (pruneUnconfirmedTransactions info.pruningIndex
      (setSnapshotInfo { info with entryPointIndex := tgt }
        (storeSolidEntryPoints
          (eps.foldl (fun acc p => solidEntryPointsAdd p.1 p.2 acc)
            (resetSolidEntryPoints { store := st, trace := [] }))))).store.milestones =
      st.milestones := by
    rw [pruneUnconfirmedTransactions_milestones]
    show ((eps.foldl (fun acc p => solidEntryPointsAdd p.1 p.2 acc)
      (resetSolidEntryPoints { store := st, trace := [] }))).store.milestones = _
    rw [sep_fold_milestones]
    rfl
  have hsnap5 : (pruneUnconfirmedTransactions info.pruningIndex
      (setSnapshotInfo { info with entryPointIndex := tgt }
        (storeSolidEntryPoints
          (eps.foldl (fun acc p => solidEntryPointsAdd p.1 p.2 acc)
            (resetSolidEntryPoints { store := st, trace := [] }))))).store.snapshotInfo =
      some { info with entryPointIndex := tgt } := by
    rw [pruneUnconfirmedTransactions_snapshotInfo]
    rfl
  have hdm5 : ∀ idx, PruneAction.deleteMilestone idx ∉
      (pruneUnconfirmedTransactions info.pruningIndex
        (setSnapshotInfo { info with entryPointIndex := tgt }
          (storeSolidEntryPoints
            (eps.foldl (fun acc p => solidEntryPointsAdd p.1 p.2 acc)
              (resetSolidEntryPoints { store := st, trace := [] }))))).trace := by
    intro idx hmem
    have h4 := pruneUnconfirmedTransactions_trace_dm _ _ idx hmem
    have hps4 : (setSnapshotInfo { info with entryPointIndex := tgt }
        (storeSolidEntryPoints
          (eps.foldl (fun acc p => solidEntryPointsAdd p.1 p.2 acc)
            (resetSolidEntryPoints { store := st, trace := [] })))).trace =
        (PruneAction.resetSolidEntryPoints ::
          eps.map (fun p => PruneAction.addSolidEntryPoint p.1 p.2)) ++
        [PruneAction.storeSolidEntryPoints,
         PruneAction.setSnapshotInfo { info with entryPointIndex := tgt }] := by
      simp [setSnapshotInfo, storeSolidEntryPoints, emitAction, sep_fold_trace,
        resetSolidEntryPoints]
    rw [hps4] at h4
    simp at h4
  generalize hps5 : pruneUnconfirmedTransactions info.pruningIndex
      (setSnapshotInfo { info with entryPointIndex := tgt }
        (storeSolidEntryPoints
          (eps.foldl (fun acc p => solidEntryPointsAdd p.1 p.2 acc)
            (resetSolidEntryPoints { store := st, trace := [] })))) = ps5
    at hmil hsnap5 hdm5 ⊢
  have habort := pruneLoop_abort_run ab tc m (tgt - info.pruningIndex)
    (info.pruningIndex + 1) { info with entryPointIndex := tgt } ps5
    habm
    (fun i h1 h2 => hbefore i h2 h1)
    hm1 (by omega)
    (fun i h1 h2 => by
      rw [milestoneOk_congr _ st.milestones tc i (congrFun hmil i)]
      exact hok i h2 h1)
    rfl hsnap5
  rcases hloop : pruneLoop ab tc
      (List.range' (info.pruningIndex + 1) (tgt - info.pruningIndex))
      { info with entryPointIndex := tgt } ps5 with ⟨res, info2, ps6⟩
  rw [hloop] at habort
  have hres : res = Except.error PruneError.pruningAborted := habort.1
  subst hres
  refine ⟨rfl, habort.2.2.1, ?_⟩
  intro idx hidx hmem
  exact hdm5 idx (habort.2.2.2 idx hidx hmem)

set_option maxRecDepth 10000 in
/-- Witness for C4: SnapshotInfo = {1000, 800, 800}, threshold 50,
target 851, milestone 801 present, abort firing from 802 on: the run
aborts with PruningIndex = 801 persisted and milestone 803 not deleted. -/
theorem prune_abort_partial_progress_witness :
    ((pruneDatabase 50 (fun _ => Except.ok [(7, 851)]) (fun _ => Except.ok [])
        (fun i => decide (802 ≤ i)) 851
        { snapshotInfo := some ⟨1000, 800, 800⟩
          messages := fun _ => none
          bundles := fun _ => none
          unconfirmedIDs := fun _ => []
          children := fun _ => []
          milestones := fun i => if i = 801 then some ⟨5⟩ else none
          ledgerDiffs := fun _ => false
          solidEntryPoints := [] }).1 =
      Except.error PruneError.pruningAborted) ∧
    ((pruneDatabase 50 (fun _ => Except.ok [(7, 851)]) (fun _ => Except.ok [])
        (fun i => decide (802 ≤ i)) 851
        { snapshotInfo := some ⟨1000, 800, 800⟩
          messages := fun _ => none
          bundles := fun _ => none
          unconfirmedIDs := fun _ => []
          children := fun _ => []
          milestones := fun i => if i = 801 then some ⟨5⟩ else none
          ledgerDiffs := fun _ => false
          solidEntryPoints := [] }).2.store.snapshotInfo =
      some ⟨1000, 801, 851⟩) ∧
    PruneAction.deleteMilestone 803 ∉
      (pruneDatabase 50 (fun _ => Except.ok [(7, 851)]) (fun _ => Except.ok [])
        (fun i => decide (802 ≤ i)) 851
        { snapshotInfo := some ⟨1000, 800, 800⟩
          messages := fun _ => none
          bundles := fun _ => none
          unconfirmedIDs := fun _ => []
          children := fun _ => []
          milestones := fun i => if i = 801 then some ⟨5⟩ else none
          ledgerDiffs := fun _ => false
          solidEntryPoints := [] }).2.trace := by
  have hth := prune_abort_partial_progress 50 (fun _ => Except.ok [(7, 851)])
    (fun _ => Except.ok []) (fun i => decide (802 ≤ i)) 851 851 802
    { snapshotInfo := some ⟨1000, 800, 800⟩
      messages := fun _ => none
      bundles := fun _ => none
      unconfirmedIDs := fun _ => []
      children := fun _ => []
      milestones := fun i => if i = 801 then some ⟨5⟩ else none
      ledgerDiffs := fun _ => false
      solidEntryPoints := [] }
    ⟨1000, 800, 800⟩ [(7, 851)] rfl (by decide) (by decide) (by decide)
    (by decide) rfl (by decide) (by decide) (by decide) (by decide)
    (by decide)
  exact ⟨hth.1, hth.2.1, hth.2.2 803 (by decide)⟩

/-- C2 counterexample: with SnapshotInfo = {100, 50, 50},
SolidEntryPointCheckThresholdPast = 50 and targetIndex = 200, the guard
`SnapshotIndex < threshold + AdditionalPruningThreshold + 1` (100 < 101)
fires first, so pruneDatabase returns NotEnoughHistory — clamping is
never reached and NoPruningNeeded is not returned. -/
theorem prune_s3_counterexample :
    ((pruneDatabase 50 (fun _ => Except.ok []) (fun _ => Except.ok [])
        (fun _ => false) 200
        { snapshotInfo := some ⟨100, 50, 50⟩
          messages := fun _ => none
          bundles := fun _ => none
          unconfirmedIDs := fun _ => []
          children := fun _ => []
          milestones := fun _ => none
          ledgerDiffs := fun _ => false
          solidEntryPoints := [] }).1 =
      Except.error PruneError.notEnoughHistory) ∧
    PruneError.notEnoughHistory ≠ PruneError.noPruningNeeded := by
  exact ⟨rfl, by decide⟩

/-- C2 amended: whenever SnapshotIndex is below
SolidEntryPointCheckThresholdPast + AdditionalPruningThreshold + 1 —
as with the claim's numbers, 100 < 50 + 50 + 1 — pruneDatabase returns
NotEnoughHistory from its history guard, before clamping the target or
comparing it with PruningIndex. -/
theorem prune_not_enough_history (sepPast : Nat)
    (gsep : Nat → Except PruneError (List (Nat × Nat)))
    (tc : Nat → Except Unit (List Nat)) (ab : Nat → Bool)
    (targetIndex : Nat) (st : StoreState) (info : SnapshotInfo)
    (hinfo : st.snapshotInfo = some info)
    (hlt : info.snapshotIndex < sepPast + AdditionalPruningThreshold + 1) :
    (pruneDatabase sepPast gsep tc ab targetIndex st).1 =
      Except.error PruneError.notEnoughHistory := by
  simp [pruneDatabase, hinfo, hlt]

/-- Witness for the amended C2 at the claim's concrete numbers. -/
theorem prune_not_enough_history_witness :
    (pruneDatabase 50 (fun _ => Except.ok []) (fun _ => Except.ok [])
        (fun _ => false) 200
        { snapshotInfo := some ⟨100, 50, 50⟩
          messages := fun _ => none
          bundles := fun _ => none
          unconfirmedIDs := fun _ => []
          children := fun _ => []
          milestones := fun _ => none
          ledgerDiffs := fun _ => false
          solidEntryPoints := [] }).1 =
      Except.error PruneError.notEnoughHistory :=
  prune_not_enough_history 50 (fun _ => Except.ok []) (fun _ => Except.ok [])
    (fun _ => false) 200 _ ⟨100, 50, 50⟩ rfl (by decide)

theorem pruneMessageStep_trace_mem (ps : PruneState) (id : Nat) (a : PruneAction)
    (h : a ∈ (pruneMessageStep ps id).trace) :
    a ∈ ps.trace ∨ a.isConeDeletion = true := by
  unfold pruneMessageStep at h
  cases hm : ps.store.messages id with
  | none => rw [hm] at h; exact Or.inl h
  | some msg =>
      rw [hm] at h
      simp only [deleteMessage, deleteChildren, deleteChild, emitAction,
        List.append_assoc, List.mem_append, List.mem_cons, List.mem_singleton,
        List.not_mem_nil, or_false] at h
      rcases h with h | h | h | h | h
      · exact Or.inl h
      all_goals (subst h; exact Or.inr rfl)

theorem pruneMessages_trace_mem (ids : List Nat) (ps : PruneState)
    (a : PruneAction) (h : a ∈ (pruneMessages ids ps).trace) :
    a ∈ ps.trace ∨ a.isConeDeletion = true := by
  induction ids generalizing ps with
  | nil => exact Or.inl h
  | cons hd tl ih =>
      rcases ih _ h with h2 | h2
      · exact pruneMessageStep_trace_mem ps hd a h2
      · exact Or.inr h2

theorem pruneUnconfirmedTransactions_trace_mem (i : Nat) (ps : PruneState)
    (a : PruneAction) (h : a ∈ (pruneUnconfirmedTransactions i ps).trace) :
    a ∈ ps.trace ∨ a.isConeDeletion = true := by
  unfold pruneUnconfirmedTransactions at h
  simp only [deleteUnconfirmedMessages, emitAction, List.mem_append,
    List.mem_singleton] at h
  rcases h with h | h
  · exact pruneMessages_trace_mem _ ps a h
  · subst h; exact Or.inr rfl

set_option maxRecDepth 100000 in
/-- C6 counterexample: milestone 801 is absent from the store but 802
through 811 are present; a pruneDatabase run with target 811 completes
with the persisted PruningIndex = 811 ≥ 801 — PruningIndex does advance
to and beyond the skipped milestone — and a subsequent run with the same
target returns NoPruningNeeded instead of retrying milestone 801. -/
theorem missing_milestone_advances_counterexample :
    (({ snapshotInfo := some ⟨1000, 800, 760⟩
        messages := fun _ => none
        bundles := fun _ => none
        unconfirmedIDs := fun _ => []
        children := fun _ => []
        milestones := fun i => if 802 ≤ i ∧ i ≤ 811 then some ⟨i⟩ else none
        ledgerDiffs := fun _ => false
        solidEntryPoints := [] : StoreState }).milestones 801 = none) ∧
    ((pruneDatabase 50 (fun _ => Except.ok []) (fun _ => Except.ok [])
        (fun _ => false) 811
        { snapshotInfo := some ⟨1000, 800, 760⟩
          messages := fun _ => none
          bundles := fun _ => none
          unconfirmedIDs := fun _ => []
          children := fun _ => []
          milestones := fun i => if 802 ≤ i ∧ i ≤ 811 then some ⟨i⟩ else none
          ledgerDiffs := fun _ => false
          solidEntryPoints := [] }).1 = Except.ok ()) ∧
    ((pruneDatabase 50 (fun _ => Except.ok []) (fun _ => Except.ok [])
        (fun _ => false) 811
        { snapshotInfo := some ⟨1000, 800, 760⟩
          messages := fun _ => none
          bundles := fun _ => none
          unconfirmedIDs := fun _ => []
          children := fun _ => []
          milestones := fun i => if 802 ≤ i ∧ i ≤ 811 then some ⟨i⟩ else none
          ledgerDiffs := fun _ => false
          solidEntryPoints := [] }).2.store.snapshotInfo =
      some ⟨1000, 811, 811⟩) ∧
    ((pruneDatabase 50 (fun _ => Except.ok []) (fun _ => Except.ok [])
        (fun _ => false) 811
        (pruneDatabase 50 (fun _ => Except.ok []) (fun _ => Except.ok [])
          (fun _ => false) 811
          { snapshotInfo := some ⟨1000, 800, 760⟩
            messages := fun _ => none
            bundles := fun _ => none
            unconfirmedIDs := fun _ => []
            children := fun _ => []
            milestones := fun i => if 802 ≤ i ∧ i ≤ 811 then some ⟨i⟩ else none
            ledgerDiffs := fun _ => false
            solidEntryPoints := [] }).2.store).1 =
      Except.error PruneError.noPruningNeeded) := by
  exact ⟨rfl, rfl, rfl, rfl⟩

/-- C6 amended: the milestone-loop iteration for a milestone index m
that is absent from the store performs only the unconfirmed-prune for m
and continues with the same (unchanged) SnapshotInfo: PruningIndex is
not set to m during that iteration, and that iteration persists no
SnapshotInfo at all. (Later iterations for present milestones still
advance PruningIndex past m, so a subsequent run with the same target
only retries m when no later milestone of the range was pruned.) -/
theorem missing_milestone_skipped (ab : Nat → Bool)
    (tc : Nat → Except Unit (List Nat)) (m : Nat) (rest : List Nat)
    (info : SnapshotInfo) (ps : PruneState)
    (hab : ab m = false) (hmiss : ps.store.milestones m = none) :
    (pruneLoop ab tc (m :: rest) info ps =
      pruneLoop ab tc rest info (pruneUnconfirmedTransactions m ps)) ∧
    (∀ info2, PruneAction.setSnapshotInfo info2 ∈
        (pruneUnconfirmedTransactions m ps).trace →
      PruneAction.setSnapshotInfo info2 ∈ ps.trace) := by
  constructor
  · exact pruneLoop_cons_missing ab tc m rest info ps hab
      (by rw [pruneUnconfirmedTransactions_milestones]; exact hmiss)
  · intro info2 hmem
    rcases pruneUnconfirmedTransactions_trace_mem m ps _ hmem with h | h
    · exact h
    · exact absurd h (by simp [PruneAction.isConeDeletion])

/-- Witness for the amended C6: a concrete skipped iteration for the
absent milestone 3. -/
theorem missing_milestone_skipped_witness :
    (pruneLoop (fun _ => false) (fun _ => Except.ok []) [3] ⟨10, 2, 2⟩
        { store :=
            { snapshotInfo := some ⟨10, 2, 2⟩
              messages := fun _ => none
              bundles := fun _ => none
              unconfirmedIDs := fun _ => []
              children := fun _ => []
              milestones := fun _ => none
              ledgerDiffs := fun _ => false
              solidEntryPoints := [] }
          trace := [] } =
      pruneLoop (fun _ => false) (fun _ => Except.ok []) [] ⟨10, 2, 2⟩
        (pruneUnconfirmedTransactions 3
          { store :=
              { snapshotInfo := some ⟨10, 2, 2⟩
                messages := fun _ => none
                bundles := fun _ => none
                unconfirmedIDs := fun _ => []
                children := fun _ => []
                milestones := fun _ => none
                ledgerDiffs := fun _ => false
                solidEntryPoints := [] }
            trace := [] })) ∧
    (∀ info2, PruneAction.setSnapshotInfo info2 ∈
        (pruneUnconfirmedTransactions 3
          { store :=
              { snapshotInfo := some ⟨10, 2, 2⟩
                messages := fun _ => none
                bundles := fun _ => none
                unconfirmedIDs := fun _ => []
                children := fun _ => []
                milestones := fun _ => none
                ledgerDiffs := fun _ => false
                solidEntryPoints := [] }
            trace := [] }).trace →
      PruneAction.setSnapshotInfo info2 ∈
        (({ store :=
            { snapshotInfo := some ⟨10, 2, 2⟩
              messages := fun _ => none
              bundles := fun _ => none
              unconfirmedIDs := fun _ => []
              children := fun _ => []
              milestones := fun _ => none
              ledgerDiffs := fun _ => false
              solidEntryPoints := [] }
            trace := [] } : PruneState)).trace) :=
  missing_milestone_skipped (fun _ => false) (fun _ => Except.ok []) 3 []
    ⟨10, 2, 2⟩
    { store :=
        { snapshotInfo := some ⟨10, 2, 2⟩
          messages := fun _ => none
          bundles := fun _ => none
          unconfirmedIDs := fun _ => []
          children := fun _ => []
          milestones := fun _ => none
          ledgerDiffs := fun _ => false
          solidEntryPoints := [] }
      trace := [] } rfl rfl

end Pruning
